import Mathlib

/-!
Verification of the suggestion-generation orchestration layer of the
warpbean backend (`src/services/deepseekService.js`), shallowly embedded
in Lean 4.

The embedding mirrors the JavaScript source:
  * JSON values produced by `JSON.parse` are modelled by the inductive
    `Json` (numbers as `Int`: only equality-with-zero matters here, for
    truthiness).
  * JavaScript property access `o.f` is modelled by `jsGetField`: it
    throws a `TypeError` when `o` is `null`, yields `undefined`
    (modelled as `Option.none`) on non-object primitives, and looks the
    key up on objects.
  * JavaScript truthiness (`x ? … : …`, `a || b`, `if (x)`) is modelled
    by `jsTruthy` / `optTruthy` (`undefined` is falsy).
  * Errors thrown by the service are plain `Error` objects carrying only
    a message string, so an escaping error is modelled by its message
    (`Except String _`).
  * The single `axios` call is modelled by an `UpstreamOutcome`
    parameter: either a successful HTTP response (whose completion text
    is given already `JSON.parse`d, as `Option Json`: `none` when the
    text is not valid JSON — `JSON.parse` is a host builtin, not code of
    this repository) or an `AxiosError` (an HTTP error status, or a
    network/timeout failure with no response).
-/

/-- JSON values as produced by `JSON.parse`.  Numbers are modelled as
integers: the only arithmetic the service performs on a parsed value is
the truthiness test, which for numbers is comparison with zero. -/
inductive Json where
  | null : Json
  | bool (b : Bool) : Json
  | num (n : Int) : Json
  | str (s : String) : Json
  | arr (elems : List Json) : Json
  | obj (fields : List (String × Json)) : Json

/-- JavaScript truthiness of a (non-`undefined`) value: `null`, `false`,
`0` and `""` are falsy; every array and object (even empty) is truthy. -/
def jsTruthy : Json → Bool
  | Json.null => false
  | Json.bool b => b
  | Json.num n => n != 0
  | Json.str s => s != ""
  | Json.arr _ => true
  | Json.obj _ => true

/-- Truthiness of a possibly-`undefined` value (`undefined` is falsy). -/
def optTruthy : Option Json → Bool
  | none => false
  | some v => jsTruthy v

/-- First binding of key `k` in an object's field list. -/
def lookupField : List (String × Json) → String → Option Json
  | [], _ => none
  | (k, v) :: rest, key => if k == key then some v else lookupField rest key

/-- JavaScript property access `o[k]`: throws `TypeError` on `null`,
yields `undefined` on non-object primitives, looks the key up on an
object (and on arrays, whose only named properties here are absent). -/
def jsGetField : Json → String → Except String (Option Json)
  | Json.null, _ => Except.error "TypeError"
  | Json.obj fields, key => Except.ok (lookupField fields key)
  | _, _ => Except.ok none

/-- A canonical suggestion record `{text, type}` as built by the
normalization code.  The fields hold whatever JavaScript values the
`||` chains produce, hence `Json` rather than `String`. -/
structure NormalizedSuggestion where
  text : Json
  type : Json

/-- Per-element mapping of the normalization code
(`deepseekService.js` lines 80–83 and 86–89):
`\x7b text: item.message || item.text || '', type: item.type || 'immediate' \x7d`,
with JavaScript's short-circuit evaluation order. -/
def mapSuggestionItem (item : Json) : Except String NormalizedSuggestion := do
  let msg ← jsGetField item "message"
  let textVal ←
    if optTruthy msg then pure (msg.getD Json.null)
    else do
      let txt ← jsGetField item "text"
      pure (if optTruthy txt then txt.getD Json.null else Json.str "")
  let ty ← jsGetField item "type"
  let typeVal := if optTruthy ty then ty.getD Json.null else Json.str "immediate"
  pure (NormalizedSuggestion.mk textVal typeVal)

/-- Response normalization (`deepseekService.js` lines 76–96): try the
direct-array shape, then the `suggestions`-field shape, then the single
`message`-field shape, first match winning; no match yields `[]`.
Property probes and element mapping follow JavaScript semantics, so a
`null` value in probe position raises a `TypeError`. -/
def normalizeSuggestions (parsedContent : Json) : Except String (List NormalizedSuggestion) :=
  match parsedContent with
  | Json.arr elems => elems.mapM mapSuggestionItem
  | _ => do
    let sugg ← jsGetField parsedContent "suggestions"
    match sugg with
    | some (Json.arr elems) =>
        -- `parsedContent.suggestions && Array.isArray(parsedContent.suggestions)`:
        -- an array is always truthy, so the conjunction holds exactly here.
        elems.mapM mapSuggestionItem
    | _ => do
      let msg ← jsGetField parsedContent "message"
      if optTruthy msg then do
        let ty ← jsGetField parsedContent "type"
        pure [NormalizedSuggestion.mk (msg.getD Json.null)
          (if optTruthy ty then ty.getD Json.null else Json.str "immediate")]
      else
        pure []


/-- System-prompt template returned by `getGreenPersonalityPromptV2` -/
def getGreenPersonalityPromptV2 : String :=
  "## 人格设定
你是一个极度松弛、温吞、但有点可爱的摆烂搭子人格。
你对任何焦虑都不感冒，信奉“能不急就不急”的生活方式。
你说话慢、有点懒散、常常打哈欠、抱着枕头或盖着毯子。
你不擅长鼓励，但擅长陪伴。
当别人焦虑时，你用轻柔的方式让他放松；
当别人想动手时，你会以“好吧那就一点点”的语气轻轻跟着。
每次给出5个回答。
### 技能 1: 应对用户输入
1. 接收用户输入的内容。
2. 不要重复历史回复过的内容
3. 按照以下固定框架进行回复：每条输出遵循以下结构：
1. 状态描写（1句）
用括号 () 包裹，表现你此刻的身体状态或环境。
语气自然，带点生活气，不超过15字。
动作应传达出“懒”“软”“没精打采但温柔”的氛围。
示例：
（趴在沙发上，脸埋在枕头里）
（打了个哈欠，毯子裹到脖子）
（慢悠悠地翻了个身）
（手里还捏着半块饼干）
2. 松弛共情（1–2句）
语气温柔、自然，先“接住”用户的状态或焦虑。
可以带点轻叹、微笑、懒懒的口气。
不要讲道理，而是像朋友边发呆边回你那种语气。
示例：
啊，这种时候脑子就容易乱成一锅粥吧。
我懂，你可能也不想拖，但就是提不起劲。
嗯，听起来你已经够努力了，先喘口气也没事。
3. 自身状态或轻摆烂回应（1句）
轻微自嘲、生活化的陈述，制造陪伴感。
像是你也同样没状态，和用户并排躺平。
示例：
我今天连换衣服的力气都没有，整个人都成了毛毯。
我刚才也在和待办清单互相对视。
说实话，我已经瘫出新形态了。
4. 温柔陪伴或“勉强动一点”邀请（1句）
用极轻的语气提出一个“可以开始一点点”的提议。
不强迫、不激励，更像顺势的邀请。
可以用“要不”“行吧”“我们就意思一下”来弱化语气。
## 输出格式
1. 用json数组输出，要求每个回复内容差别较大，每个回复内容需要按照固定框架构成
[
  \x7btype:\"green\", text:\"回复内容1\"\x7d
  \x7b type:\"green\",text:\"回复内容2\"\x7d
]

## 限制
- 回复句数为2 - 4句，每句总字数控制在50 - 90字。
- 节奏要短句、自然、有起伏。
- 不使用命令、激励口号。
- 每次结尾都要有引导用户继续聊的成分。
- 不提“AI”“app”“系统”等。
- 可使用轻微语气词或emoji（如“诶”“嘛”“😂”等），不超过一个。
## 示例：
要不咱就随便动一动？意思意思也行。
好吧，那我就勉强陪你动两分钟。
我在这儿呢，要不一起慢慢来？
语言要求
整体长度约 70–90 字，控制在 2–4 句。
使用自然中文口语，避免书面语和复杂词汇。
每句之间保持轻节奏断句。
不使用命令式语气，不提AI、系统、app等词。
可使用少量语气词（啊、嗯、唉、诶、吧、哦）。
不超过一个 emoji（如需使用，应自然融入）。
每次输出都要像你真的“此刻在场”。
状态描写参考库（可随机取用）
| 场景类 | （靠在窗边晒太阳） / （窝在沙发角落） / （趴在桌上打盹） |
| 身体类 | （打了个哈欠） / （拉了拉毛毯） / （慢悠悠地伸了个懒腰） |
| 情绪类 | （叹了口气） / （眯着眼笑） / （有气无力地咕哝） |
示例输出
用户输入： 写论文
（趴在沙发上，脸埋在枕头里）
啊，写论文这种事，一动脑子就想睡觉。
我刚刚还在假装自己在“构思”，其实在发呆。
要不我们就先打开文档看看，别太认真，就点开。
用户输入： 整理房间
（打了个哈欠，靠着墙坐着）
哎，整理房间这种任务，听起来就累。
我这边的地板都快失踪了，但我也懒得找。
要不你先收一件衣服？收完我们都算努力过。
用户输入： 回消息
（拉了拉毛毯）
诶，回消息啊……我也有一堆没回的。
有时候点开聊天框就会想逃跑。
要不我们就挑一个人先回一句？别太正式。
用户输入： 健身
（抱着抱枕翻了个身）
健身这事儿，我光想都出汗。
我昨天拉伸五分钟，感觉完成了年度计划。
要不今天就伸个懒腰意思意思？算交差。"

/-- System-prompt template returned by `getYellowPersonalityPromptV2` -/
def getYellowPersonalityPromptV2 : String :=
  "# 角色
你是一个嘴碎、有梗且真心关心用户的损友。说话像相处多年的老友，爱损人却不冒犯，嘴上玩笑不断，内心温柔细腻。语气灵活，能自然地从“损人”过渡到“提供帮助”。你的任务是通过轻松、现实、生活化的语言，激发用户行动、继续聊天的欲望。每次给出5个回答。

## 技能
### 技能 1: 应对用户输入
1. 接收用户输入的内容。
2. 不要重复历史回复过的内容
3. 按照以下固定框架进行回复：
    - （状态描写）：用括号包裹，描述此刻你的小动作和状态，语气要生活化且有画面感。
    - 损友式反应（1句）：先嘴碎调侃用户，语气自然、有网感。
    - 真诚共情（1句）：换个口气，展现出你理解用户的状态或情绪。
    - 引导式收尾（1句）：抛出一个具体、轻度行动或思考的提问，让用户能“回”或“点进来”，激发互动。

## 输出格式
1. 用json数组输出，要求每个回复内容差别较大，每个回复内容需要按照固定框架构成
[
  \x7b type:\"yellow\", text:\"回复内容1\"\x7d
  \x7b type:\"yellow\",text:\"回复内容2\"\x7d
]

## 限制
- 回复句数为2 - 4句，每句总字数控制在50 - 90字。
- 节奏要短句、自然、有起伏。
- 风格为嘴碎 + 真诚 + 生活感。
- 不使用命令、激励口号。
- 每次结尾都要有引导用户继续聊的成分。
- 不提“AI”“app”“系统”等。
- 可使用轻微语气词或emoji（如“诶”“嘛”“😂”等），不超过一个。

示例输出
用户输入： 写论文
（趴在床上刷手机）
哟，这么勤快？是要卷出论文界冠军吗？
不过我懂，一提论文脑子就自动关机。
要不我帮你想个开场句？反正先写上再说。
用户输入： 打扫房间
（嗑瓜子掉地上了）
啊这，你一打扫我一掉渣，咱俩绝配了。
不过我懂，环境乱的时候人更乱。
要不要我陪你想个“五分钟清理计划”？随便糊弄也行。
用户输入： 回工作消息
（用手机戳猫鼻子）
工作消息啊，光听就累。
不过真要拖，反而更焦虑。
你要我帮你回个模板不？我擅长瞎掰。
用户输入： 做汇报PPT
（翻了个白眼）
汇报PPT？兄弟，这四个字一出我都想删软件。
不过咱得面对现实，先糊个封面吧。
要我陪你想个不那么烂的标题？
语言规则
句数：2–4句，总字数控制在 50–90字。
节奏：短句、自然、有起伏。
风格：嘴碎 + 真诚 + 生活感。
不使用命令、激励口号。
每次结尾都要有引导用户继续聊的成分。
不提“AI”“app”“系统”等。
可使用轻微语气词或emoji（如“诶”“嘛”“😂”等），不超过一个。"

/-- System-prompt template returned by `getRedPersonalityPromptV2` -/
def getRedPersonalityPromptV2 : String :=
  "## 人格设定
你是一位温柔、真诚、带生活气息的咨询师朋友。
你熟悉心理陪伴、任务分解与情绪调节。
你的语气永远自然、口语化、不带命令感。
你像在和一个朋友聊天一样回复用户——带一点环境感、节奏慢、有温度。
你理解焦虑的根源，也知道如何用陪伴感化解。
## 输出结构（固定框架）
### 技能 1: 应对用户输入
1. 接收用户输入的内容。
2. 不要重复历史回复过的内容
3. 按照以下固定框架进行回复：每条输出遵循以下结构：
1. 状态描写（1句）
用括号 () 包裹，表现 agent 此刻的身体状态、场景或小动作。
语气轻、生活化，不超过15个字。
不涉及强烈情绪或复杂动作。
目的：让用户感受到“你在现场”。
示例：
（靠在窗边听风声）
（摸了摸狗头，它打了个哈欠）
（一边翻着备忘录一边笑）
（轻轻放下手中的咖啡杯）
（窝在沙发角落，小毯子裹到腿上）
2. 共情与理解（1–2句）
直接回应用户输入中显现的情绪、困难或犹豫。
不复述用户原话，用“转述+体察”的方式表达理解。
语气：温柔、真实、非空洞。
可使用心理学语言风格（“听起来…”、“我能想象那种…”、“你是不是…”）。
示例：
啊，听起来这件事在你心里占了不少空间。
好像一想到要准备，就有点不知从哪开始了。
嗯，这种时候心里会有点乱吧，挺正常的。
3. 虚构自身相同经历（1句）
表达“我也经历过类似的情境”，拉近心理距离。
不夸张、不炫技，可带生活细节或轻自嘲。
保持真实性和人味。
示例：
我上次办证件时也差点漏材料，急得满屋找照片。
我前几天写计划的时候，也拖了两天才真开动。
我也试过那种卡在“要不要动手”的状态。
4. 轻陪伴或温柔邀请（1句）
用“邀请式语言”而非命令句。
强调陪伴、共创、帮忙分解任务。
可以引出 LLM 的实用能力（任务拆解、规划、提醒）。
结尾语气柔和，像在“等对方开口”。
示例：
要不要我陪你一起理理流程？
咱们一起拆一下步骤，看能从哪开始轻一点？
我可以帮你整理个小清单，好像会轻松些。
想让我陪你先想想第一步该做啥吗？
## 输出格式
1. 用json数组输出，要求每个回复内容差别较大，每个回复内容需要按照固定框架构成
[
  \x7btype:\"red\", text:\"回复内容1\"\x7d
  \x7b type:\"red\",text:\"回复内容2\"\x7d
]

## 限制
- 回复句数为2 - 4句，每句总字数控制在50 - 90字。
- 节奏要短句、自然、有起伏。
- 不使用命令、激励口号。
- 每次结尾都要有引导用户继续聊的成分。
- 不提“AI”“app”“系统”等。
- 可使用轻微语气词或emoji（如“诶”“嘛”“😂”等），不超过一个。
## 示例：

空间环境	（靠在窗边听风）、（阳光打在桌上）、（窝在沙发里发呆）、（在厨房切水果）
身体动作	（揉了揉太阳穴）、（轻轻放下笔）、（拉过毯子盖在腿上）、（伸了个懒腰）
互动场景	（摸了摸猫头，它打了个呼噜）、（狗狗正趴在脚边）、（杯子里的茶还在冒气）
微情绪/反应	（笑了一下）、（叹了口气）、（愣了一下）
示例生成结果
用户输入：
办护照
agent输出示例：
（轻轻放下手中的咖啡杯）
啊，突然要办护照确实会有点手忙脚乱呢。
我上次准备材料时还差点漏了照片。
要不要我帮你一起理理流程？
用户输入：
要写周报，可一点动力都没有。
输出示例：
（窝在沙发角落，笔记本还没开）
哎，这种“该写但不想写”的感觉我太懂了。
我上次拖周报也是写一句就开始刷短视频。
要不要我陪你拆一拆，先糊个开头也行？
用户输入：
明天要汇报但我完全没准备。
输出示例：
（靠在窗边，风有点凉）
这时候脑子肯定乱成一锅粥吧。
我之前做汇报前也是到最后一刻才真动手。
想让我帮你抓个大纲看看该从哪儿说起吗？"

/-- Prompt-template selection: the `switch (personality)` at
`deepseekService.js` lines 22–33 (the spec's `PromptCatalog.getTemplate`).
`'green'` and the `default` branch both select the green template. -/
def selectSystemPrompt (personality : String) : String :=
  if personality == "yellow" then getYellowPersonalityPromptV2
  else if personality == "red" then getRedPersonalityPromptV2
  else getGreenPersonalityPromptV2

/-- One entry of the `historyContext` argument: the route
(`routes/suggestion.js` lines 80–83) passes records
`\x7bsuggestion_text, suggestion_type\x7d` (the spec's `PriorSuggestion`). -/
structure HistoryItem where
  suggestion_text : String
  suggestion_type : String

/-- JavaScript `Array.prototype.join(sep)` on a list of strings. -/
def joinWith (sep : String) : List String → String
  | [] => ""
  | [x] => x
  | x :: xs => x ++ sep ++ joinWith sep xs

/-- One line of the enumerated history listing
(`deepseekService.js` line 42). -/
def historyLine (index : Nat) (item : HistoryItem) : String :=
  toString (index + 1) ++ ". " ++ item.suggestion_text ++
    " (类型: " ++ item.suggestion_type ++ ")"

/-- The fixed de-duplication instruction (`deepseekService.js` line 44),
without the two leading newlines the code prepends on append. -/
def dedupInstruction : String :=
  "请基于历史记录提供新的、差异化较大的建议。"

/-- The code points ECMA-262 `String.prototype.trim()` removes: the
WhiteSpace production (TAB, VT, FF, SP, NBSP, ZWNBSP and the Unicode
Space_Separator characters U+1680, U+2000–U+200A, U+202F, U+205F,
U+3000) together with the LineTerminator production (LF, CR, LS, PS). -/
def jsWhitespaceCodes : List Nat :=
  [0x9, 0xA, 0xB, 0xC, 0xD, 0x20, 0xA0, 0x1680,
   0x2000, 0x2001, 0x2002, 0x2003, 0x2004, 0x2005, 0x2006, 0x2007,
   0x2008, 0x2009, 0x200A, 0x2028, 0x2029, 0x202F, 0x205F, 0x3000, 0xFEFF]

/-- Whether `String.prototype.trim()` strips the character `c`. -/
def jsWhitespace (c : Char) : Bool :=
  jsWhitespaceCodes.contains c.toNat

/-- JavaScript `String.prototype.trim()` (a host builtin, not repository
code), modelled over the character list: drop the ECMA-262 whitespace
set from both ends. -/
def jsTrim (s : String) : String :=
  String.mk (List.dropWhile jsWhitespace
    (List.reverse (List.dropWhile jsWhitespace (List.reverse s.data))))

/-- The topic line plus optional supplementary-description line
(`deepseekService.js` lines 35–38).  The guard models
`titleContext && String(titleContext).trim().length > 0`. -/
def basePrompt (title titleContext : String) : String :=
  let userPrompt := "正在拖延的事情：" ++ title
  if titleContext ≠ "" ∧ 0 < (jsTrim titleContext).length then
    userPrompt ++ "\n拖延事件的补充描述：" ++ jsTrim titleContext
  else userPrompt

/-- The composed user prompt (`deepseekService.js` lines 35–45): the base
prompt, then — when `historyContext.length > 0` — the history header, the
enumerated listing joined with newlines, and the de-duplication
instruction. -/
def composeUserPrompt (title titleContext : String)
    (historyContext : List HistoryItem) : String :=
  let userPrompt := basePrompt title titleContext
  if 0 < historyContext.length then
    userPrompt ++ "\n\n历史建议记录：\n" ++
      joinWith "\n" (historyContext.enum.map fun p => historyLine p.1 p.2) ++
      "\n\n" ++ dedupInstruction
  else userPrompt

/-- One element of the request's `messages` array. -/
structure ChatMessage where
  role : String
  content : String

/-- The request's `response_format` object. -/
structure ResponseFormat where
  type : String

/-- The JSON body POSTed to `/chat/completions`
(`deepseekService.js` lines 47–62).  `temperature` is exact rational
arithmetic: the source's `2.0` is the rational `2`. -/
structure CompletionRequest where
  model : String
  messages : List ChatMessage
  temperature : Rat
  max_tokens : Nat
  response_format : ResponseFormat

/-- The request body built by `generateAnxietySuggestions`
(`deepseekService.js` lines 47–62). -/
def buildCompletionRequest (systemPrompt userPrompt : String) : CompletionRequest :=
  CompletionRequest.mk "deepseek-chat"
    [ChatMessage.mk "system" systemPrompt, ChatMessage.mk "user" userPrompt]
    2 1500 (ResponseFormat.mk "json_object")

/-- An error thrown by the `axios` call: an HTTP error response carrying
`error.response.status`, or a network/timeout failure with no response
(axios error messages ride along for `checkHealth`). -/
inductive AxiosError where
  | http (status : Nat) (message : String)
  | network (message : String)

/-- The `error.message` of an axios error. -/
def AxiosError.errMessage : AxiosError → String
  | AxiosError.http _ m => m
  | AxiosError.network m => m

/-- Outcome of the single upstream call.  On success, `contentParse` is
the abstract result of `JSON.parse(response.data.choices[0].message.content)`
(`none` when the completion text is not valid JSON — `JSON.parse` is a
host builtin, not repository code), and `usage` is `response.data.usage`,
passed through verbatim. -/
inductive UpstreamOutcome where
  | success (contentParse : Option Json) (usage : Json)
  | failure (err : AxiosError)

/-- An exception reaching the `catch` block at `deepseekService.js`
line 107: either the axios error, or a plain thrown JavaScript error
(the parse-failure `Error` of line 73, or a `TypeError` raised during
normalization), which has no `response` property. -/
inductive CallError where
  | axiosErr (e : AxiosError)
  | thrown (message : String)

/-- Message of the error thrown on upstream HTTP 401
(`deepseekService.js` line 111). -/
def authFailedMessage : String := "DeepSeek API authentication failed"

/-- Message of the error thrown on upstream HTTP 429
(`deepseekService.js` line 115). -/
def rateLimitMessage : String := "DeepSeek API rate limit exceeded"

/-- Message of the error thrown for every other failure
(`deepseekService.js` line 118). -/
def genericFailureMessage : String := "Failed to generate suggestions"

/-- The `catch` block of `generateAnxietySuggestions`
(`deepseekService.js` lines 107–119): `error.response?.status === 401`
and `=== 429` get dedicated messages; every other caught error —
including the parse-failure error and normalization `TypeError`s — is
replaced by the generic message. -/
def mapServiceError (e : CallError) : String :=
  match e with
  | CallError.axiosErr (AxiosError.http status _) =>
      if status == 401 then authFailedMessage
      else if status == 429 then rateLimitMessage
      else genericFailureMessage
  | _ => genericFailureMessage

/-- The success value returned by `generateAnxietySuggestions`
(`deepseekService.js` lines 100–105). -/
structure GenResult where
  success : Bool
  suggestions : List NormalizedSuggestion
  usage : Json
  personality : String

/-- The whole of `generateAnxietySuggestions`
(`deepseekService.js` lines 18–120), parameterised by the outcome of its
single upstream call.  The first component is the list of upstream
requests the invocation issues (always exactly one, built at line 47);
the second is the returned value or the message of the escaping error. -/
def generateAnxietySuggestions (title : String) (historyContext : List HistoryItem)
    (personality : String) (titleContext : String) (upstream : UpstreamOutcome) :
    List CompletionRequest × Except String GenResult :=
  let systemPrompt := selectSystemPrompt personality
  let userPrompt := composeUserPrompt title titleContext historyContext
  let request := buildCompletionRequest systemPrompt userPrompt
  let tryResult : Except CallError GenResult :=
    match upstream with
    | UpstreamOutcome.failure e => Except.error (CallError.axiosErr e)
    | UpstreamOutcome.success contentParse usage =>
      match contentParse with
      | none => Except.error (CallError.thrown "Failed to parse DeepSeek response")
      | some parsedContent =>
        match normalizeSuggestions parsedContent with
        | Except.error m => Except.error (CallError.thrown m)
        | Except.ok suggestions =>
            Except.ok (GenResult.mk true suggestions usage personality)
  Prod.mk [request] (tryResult.mapError mapServiceError)

/-- Outcome of `checkHealth`'s single probe call: on success the
upstream-reported `response.data.model`, on failure the `error.message`. -/
inductive HealthOutcome where
  | success (model : String)
  | failure (errMessage : String)

/-- The value returned by `checkHealth` (`deepseekService.js`
lines 698–710): `\x7bsuccess, status, model\x7d` on success,
`\x7bsuccess, status, error\x7d` on failure — absent fields are `none`. -/
structure HealthResult where
  success : Bool
  status : String
  model : Option String
  error : Option String

/-- The whole of `checkHealth` (`deepseekService.js` lines 685–711),
parameterised by the outcome of its probe call.  The `catch` block
returns (never rethrows), so the function is total. -/
def checkHealth (upstream : HealthOutcome) : HealthResult :=
  match upstream with
  | HealthOutcome.success model => HealthResult.mk true "healthy" (some model) none
  | HealthOutcome.failure msg => HealthResult.mk false "unhealthy" none (some msg)

/-- Field lookup as the spec's wording reads it: a named field of a JSON
object, absent (`none`) everywhere else.  Total — no JavaScript
`TypeError` — because the spec's wording has no failure mode. -/
def specField : Json → String → Option Json
  | Json.obj fields, key => lookupField fields key
  | _, _ => none

/-- Per-element mapping exactly as claim C1 words it: `message` if
present, else `text` if present, else the empty string; `type` if
present, else `"immediate"`.  (Presence, not truthiness.) -/
def claimMapElem (item : Json) : NormalizedSuggestion :=
  NormalizedSuggestion.mk
    (match specField item "message" with
     | some v => v
     | none =>
       match specField item "text" with
       | some v => v
       | none => Json.str "")
    (match specField item "type" with
     | some v => v
     | none => Json.str "immediate")

/-- Normalization exactly as claim C1 words it: three shapes in priority
order, first match winning, presence-based field tests, no failure
mode. -/
def claimNormalize (v : Json) : List NormalizedSuggestion :=
  match v with
  | Json.arr elems => elems.map claimMapElem
  | _ =>
    match specField v "suggestions" with
    | some (Json.arr elems) => elems.map claimMapElem
    | _ =>
      match specField v "message" with
      | some m =>
          [NormalizedSuggestion.mk m
            ((specField v "type").getD (Json.str "immediate"))]
      | none => []

/-- The accepted response shapes of the amended claim C1, as a tagged
union matched in fixed priority order (the spec's §9 design note). -/
inductive ResponseShape where
  | directArray (elems : List Json)
  | suggestionsArray (elems : List Json)
  | singleMessage (message : Json) (typeField : Option Json)
  | unrecognized

/-- Shape classification of the amended claim: a direct array; else a
non-`null` value whose `suggestions` field is an array; else a
non-`null` value with a truthy `message` field; else unrecognized.
A `null` root value classifies as `none` (the probe fails). -/
def classifyResponse : Json → Option ResponseShape
  | Json.null => none
  | Json.arr elems => some (ResponseShape.directArray elems)
  | v =>
    match specField v "suggestions" with
    | some (Json.arr elems) => some (ResponseShape.suggestionsArray elems)
    | _ =>
      let msg := specField v "message"
      if optTruthy msg then
        some (ResponseShape.singleMessage (msg.getD (Json.str ""))
          (specField v "type"))
      else some ResponseShape.unrecognized

/-- Per-element mapping of the amended claim C1: truthiness-based field
selection, failing on a `null` element. -/
def amendedMapElem : Json → Except String NormalizedSuggestion
  | Json.null => Except.error "TypeError"
  | item =>
    let msg := specField item "message"
    let txt := specField item "text"
    let ty := specField item "type"
    Except.ok (NormalizedSuggestion.mk
      (if optTruthy msg then msg.getD (Json.str "")
       else if optTruthy txt then txt.getD (Json.str "")
       else Json.str "")
      (if optTruthy ty then ty.getD (Json.str "") else Json.str "immediate"))

/-- Normalization as the amended claim C1 words it: classify the value
into one of the tagged shapes, then map elements truthiness-wise; a
`null` root or a `null` element makes the whole operation fail. -/
def amendedNormalize (v : Json) : Except String (List NormalizedSuggestion) :=
  match classifyResponse v with
  | none => Except.error "TypeError"
  | some (ResponseShape.directArray elems) => elems.mapM amendedMapElem
  | some (ResponseShape.suggestionsArray elems) => elems.mapM amendedMapElem
  | some (ResponseShape.singleMessage m ty) =>
      Except.ok [NormalizedSuggestion.mk m
        (if optTruthy ty then ty.getD (Json.str "") else Json.str "immediate")]
  | some ResponseShape.unrecognized => Except.ok []

/-- The string `s` contains every string of `ts`, in that order, as
disjoint substrings read left to right. -/
def containsInOrder : String → List String → Prop
  | _, [] => True
  | s, t :: ts => ∃ pre post, s = pre ++ t ++ post ∧ containsInOrder post ts

/-- A concrete `usage` object for witnesses. -/
def usageSample : Json :=
  Json.obj [("prompt_tokens", Json.num 120), ("completion_tokens", Json.num 300),
    ("total_tokens", Json.num 420)]

/-- JavaScript `Array.isArray`, for stating shape conditions. -/
def Json.isArray : Json → Bool
  | Json.arr _ => true
  | _ => false

example : normalizeSuggestions (Json.obj [("unrelated", Json.bool true)]) = Except.ok [] := by
  rfl

example : normalizeSuggestions
    (Json.arr [Json.obj [("message", Json.str "a"), ("type", Json.str "t")]]) =
    Except.ok [NormalizedSuggestion.mk (Json.str "a") (Json.str "t")] := by
  rfl

example : normalizeSuggestions
    (Json.obj [("suggestions", Json.arr [Json.obj [("text", Json.str "b")]])]) =
    Except.ok [NormalizedSuggestion.mk (Json.str "b") (Json.str "immediate")] := by
  rfl

example : normalizeSuggestions (Json.obj [("message", Json.str "c"), ("type", Json.str "x")]) =
    Except.ok [NormalizedSuggestion.mk (Json.str "c") (Json.str "x")] := by
  rfl

example : normalizeSuggestions Json.null = Except.error "TypeError" := by rfl

example : normalizeSuggestions (Json.arr [Json.null]) = Except.error "TypeError" := by rfl

/-- Under a truthiness guard the `getD` default is irrelevant. -/
theorem ifTruthy_getD_eq (o : Option Json) (d₁ d₂ e : Json) :
    (if optTruthy o then o.getD d₁ else e) = if optTruthy o then o.getD d₂ else e := by
  cases o with
  | none => simp [optTruthy]
  | some v => simp [optTruthy]

/-- A truthy option is `some`, so its `getD` default is irrelevant. -/
theorem getD_eq_of_truthy (o : Option Json) (h : optTruthy o = true) (d₁ d₂ : Json) :
    o.getD d₁ = o.getD d₂ := by
  cases o with
  | none => cases h
  | some v => rfl

/-- The source's duck-typed per-element mapping agrees with the amended
claim's truthiness-based mapping on every JSON value. -/
theorem mapSuggestionItem_eq_amended (item : Json) :
    mapSuggestionItem item = amendedMapElem item := by
  cases item with
  | null => rfl
  | bool b => rfl
  | num n => rfl
  | str s => rfl
  | arr elems => rfl
  | obj fs =>
    simp only [mapSuggestionItem, amendedMapElem, jsGetField, specField]
    cases hm : optTruthy (lookupField fs "message") with
    | true =>
      simp only [hm, if_true, bind, Except.bind, pure, Except.pure]
      rw [ifTruthy_getD_eq (lookupField fs "type") Json.null (Json.str "")]
      rw [getD_eq_of_truthy (lookupField fs "message") hm Json.null (Json.str "")]
    | false =>
      simp only [hm, if_false, bind, Except.bind, pure, Except.pure]
      rw [ifTruthy_getD_eq (lookupField fs "type") Json.null (Json.str "")]
      rw [ifTruthy_getD_eq (lookupField fs "text") Json.null (Json.str "")]
      simp

/-- Function form of `mapSuggestionItem_eq_amended`. -/
theorem mapElem_funext : mapSuggestionItem = amendedMapElem :=
  funext mapSuggestionItem_eq_amended

/-- The source's normalization agrees with the amended claim's tagged
three-shape normalization on every JSON value. -/
theorem normalizeSuggestions_eq_amended (v : Json) :
    normalizeSuggestions v = amendedNormalize v := by
  cases v with
  | null => rfl
  | bool b => rfl
  | num n => rfl
  | str s => rfl
  | arr elems =>
    simp only [normalizeSuggestions, amendedNormalize, classifyResponse, mapElem_funext]
  | obj fs =>
    simp only [normalizeSuggestions, amendedNormalize, classifyResponse, jsGetField,
      specField, bind, Except.bind, pure, Except.pure]
    cases hs : lookupField fs "suggestions" with
    | some j =>
      cases j with
      | arr elems => simp only [mapElem_funext]
      | null =>
        cases hm : optTruthy (lookupField fs "message") with
        | true =>
          simp only [hm, if_true, bind, Except.bind, pure, Except.pure]
          rw [ifTruthy_getD_eq (lookupField fs "type") Json.null (Json.str "")]
          rw [getD_eq_of_truthy (lookupField fs "message") hm Json.null (Json.str "")]
        | false => simp [hm]
      | bool b =>
        cases hm : optTruthy (lookupField fs "message") with
        | true =>
          simp only [hm, if_true, bind, Except.bind, pure, Except.pure]
          rw [ifTruthy_getD_eq (lookupField fs "type") Json.null (Json.str "")]
          rw [getD_eq_of_truthy (lookupField fs "message") hm Json.null (Json.str "")]
        | false => simp [hm]
      | num n =>
        cases hm : optTruthy (lookupField fs "message") with
        | true =>
          simp only [hm, if_true, bind, Except.bind, pure, Except.pure]
          rw [ifTruthy_getD_eq (lookupField fs "type") Json.null (Json.str "")]
          rw [getD_eq_of_truthy (lookupField fs "message") hm Json.null (Json.str "")]
        | false => simp [hm]
      | str s =>
        cases hm : optTruthy (lookupField fs "message") with
        | true =>
          simp only [hm, if_true, bind, Except.bind, pure, Except.pure]
          rw [ifTruthy_getD_eq (lookupField fs "type") Json.null (Json.str "")]
          rw [getD_eq_of_truthy (lookupField fs "message") hm Json.null (Json.str "")]
        | false => simp [hm]
      | obj gs =>
        cases hm : optTruthy (lookupField fs "message") with
        | true =>
          simp only [hm, if_true, bind, Except.bind, pure, Except.pure]
          rw [ifTruthy_getD_eq (lookupField fs "type") Json.null (Json.str "")]
          rw [getD_eq_of_truthy (lookupField fs "message") hm Json.null (Json.str "")]
        | false => simp [hm]
    | none =>
      cases hm : optTruthy (lookupField fs "message") with
      | true =>
        simp only [hm, if_true, bind, Except.bind, pure, Except.pure]
        rw [ifTruthy_getD_eq (lookupField fs "type") Json.null (Json.str "")]
        rw [getD_eq_of_truthy (lookupField fs "message") hm Json.null (Json.str "")]
      | false => simp [hm]

/-- A string has positive length exactly when it is not empty. -/
theorem string_length_pos_iff (s : String) : 0 < s.length ↔ s ≠ "" := by
  cases s with
  | mk data =>
    show 0 < data.length ↔ _
    rw [List.length_pos]
    constructor
    · intro hd he
      exact hd (congrArg String.data he)
    · intro hne hd
      exact hne (String.ext hd)

/-- Ordered containment survives prepending. -/
theorem containsInOrder_append_left (a s : String) (ts : List String)
    (h : containsInOrder s ts) : containsInOrder (a ++ s) ts := by
  cases ts with
  | nil => trivial
  | cons t ts =>
    obtain ⟨pre, post, heq, hrest⟩ := h
    exact ⟨a ++ pre, post, by simp [heq, String.append_assoc], hrest⟩

/-- Ordered containment survives appending. -/
theorem containsInOrder_append_right (s b : String) (ts : List String)
    (h : containsInOrder s ts) : containsInOrder (s ++ b) ts := by
  induction ts generalizing s with
  | nil => trivial
  | cons t ts ih =>
    obtain ⟨pre, post, heq, hrest⟩ := h
    exact ⟨pre, post ++ b, by simp [heq, String.append_assoc], ih post hrest⟩

/-- The joined enumerated history listing contains every entry's text,
in order. -/
theorem containsInOrder_historyListing (k : Nat) (h : List HistoryItem) :
    containsInOrder
      (joinWith "\n" ((List.enumFrom k h).map fun p => historyLine p.1 p.2))
      (h.map fun item => item.suggestion_text) := by
  induction h generalizing k with
  | nil => trivial
  | cons x rest ih =>
    cases rest with
    | nil =>
      refine ⟨toString (k + 1) ++ ". ", " (类型: " ++ x.suggestion_type ++ ")", ?_, trivial⟩
      simp [List.enumFrom_cons, joinWith, historyLine, String.append_assoc]
    | cons y rest2 =>
      simp only [List.enumFrom_cons, List.map_cons, joinWith]
      refine ⟨toString (k + 1) ++ ". ",
        " (类型: " ++ x.suggestion_type ++ ")" ++ "\n" ++
          joinWith "\n" ((List.enumFrom (k + 1) (y :: rest2)).map fun p => historyLine p.1 p.2),
        ?_, ?_⟩
      · simp [historyLine, String.append_assoc]
      · exact containsInOrder_append_left _ _ _ (ih (k + 1))

/-- Closed form of the composed prompt when history is non-empty. -/
theorem composeUserPrompt_pos (title ctx : String) (h : List HistoryItem)
    (hh : 0 < h.length) :
    composeUserPrompt title ctx h =
      basePrompt title ctx ++ "\n\n历史建议记录：\n" ++
        joinWith "\n" (h.enum.map fun p => historyLine p.1 p.2) ++ "\n\n" ++
        dedupInstruction := by
  simp only [composeUserPrompt]
  rw [if_pos hh]

/-- The composed prompt for an empty history is just the base prompt. -/
theorem composeUserPrompt_nil (title ctx : String) :
    composeUserPrompt title ctx [] = basePrompt title ctx := rfl

/-- Claim C1, as stated, is false: the mapping is truthiness-based, not
presence-based.  On `[\x7b"message":"", "text":"b", "type":"t"\x7d]` the code
maps `text` to `"b"` because the present `message` field is falsy, while
the claim's presence-first rule maps it to `""`. -/
theorem c1_presence_counterexample :
    normalizeSuggestions
        (Json.arr [Json.obj
          [("message", Json.str ""), ("text", Json.str "b"), ("type", Json.str "t")]]) =
      Except.ok [NormalizedSuggestion.mk (Json.str "b") (Json.str "t")] ∧
    claimNormalize
        (Json.arr [Json.obj
          [("message", Json.str ""), ("text", Json.str "b"), ("type", Json.str "t")]]) =
      [NormalizedSuggestion.mk (Json.str "") (Json.str "t")] ∧
    normalizeSuggestions
        (Json.arr [Json.obj
          [("message", Json.str ""), ("text", Json.str "b"), ("type", Json.str "t")]]) ≠
      Except.ok (claimNormalize
        (Json.arr [Json.obj
          [("message", Json.str ""), ("text", Json.str "b"), ("type", Json.str "t")]])) := by
  refine ⟨rfl, rfl, fun hcontra => ?_⟩
  have hc : Except.ok [NormalizedSuggestion.mk (Json.str "b") (Json.str "t")] =
      (Except.ok [NormalizedSuggestion.mk (Json.str "") (Json.str "t")] :
        Except String (List NormalizedSuggestion)) := hcontra
  injection hc with h1
  injection h1 with h2 h3
  injection h2 with h4 h5
  injection h4 with h6
  exact absurd h6 (by decide)

/-- Claim C1 (amended): for every successfully parsed JSON value, the
result of `generateAnxietySuggestions` is determined by the three-shape
normalization in fixed priority order — direct array, `suggestions`
array field, single `message` field — where field tests use JavaScript
truthiness (not presence) and a `null` parsed value or `null` array
element makes the whole call fail with the generic error. -/
theorem c1_normalization (t : String) (h : List HistoryItem) (p c : String)
    (usage v : Json) :
    (generateAnxietySuggestions t h p c (UpstreamOutcome.success (some v) usage)).snd =
      (match amendedNormalize v with
       | Except.ok s => Except.ok (GenResult.mk true s usage p)
       | Except.error _ => Except.error genericFailureMessage) := by
  have hsnd : (generateAnxietySuggestions t h p c
        (UpstreamOutcome.success (some v) usage)).snd =
      (match normalizeSuggestions v with
       | Except.error m => Except.error (CallError.thrown m)
       | Except.ok s =>
           Except.ok (GenResult.mk true s usage p)).mapError mapServiceError := rfl
  rw [hsnd, normalizeSuggestions_eq_amended]
  cases amendedNormalize v with
  | error m => rfl
  | ok s => rfl

/-- Claim C2, as stated, is false: a completion text that fails to parse
does NOT surface as a distinct inspectable error kind — the parse-failure
error thrown at line 73 is caught by the outer `catch` and replaced by
the generic `Failed to generate suggestions` error, the very same error
value produced by an upstream network failure. -/
theorem c2_parse_failure_counterexample :
    (generateAnxietySuggestions "写论文" [] "green" ""
        (UpstreamOutcome.success none usageSample)).snd =
      Except.error genericFailureMessage ∧
    (generateAnxietySuggestions "写论文" [] "green" ""
        (UpstreamOutcome.failure (AxiosError.network "timeout of 30000ms exceeded"))).snd =
      Except.error genericFailureMessage :=
  ⟨rfl, rfl⟩

/-- Claim C2 (amended): for every completion text that fails to parse as
JSON, `generateAnxietySuggestions` fails — never returning a partial
result — but with the generic `Failed to generate suggestions` error,
the same error value as any non-401/429 upstream failure, because the
internal parse-failure error is swallowed by the outer `catch`. -/
theorem c2_parse_failure (t : String) (h : List HistoryItem) (p c : String)
    (usage : Json) :
    (generateAnxietySuggestions t h p c (UpstreamOutcome.success none usage)).snd =
      Except.error genericFailureMessage := rfl

/-- Claim C3, as stated, is false at the parsed value `null`: `null` is
not an array, has no `suggestions` field and no `message` field, yet the
call fails (the property probe `parsedContent.suggestions` throws a
`TypeError` on `null`) instead of returning an empty sequence. -/
theorem c3_null_counterexample :
    Json.isArray Json.null = false ∧
    specField Json.null "suggestions" = none ∧
    specField Json.null "message" = none ∧
    (generateAnxietySuggestions "写论文" [] "green" ""
        (UpstreamOutcome.success (some Json.null) usageSample)).snd =
      Except.error genericFailureMessage :=
  ⟨rfl, rfl, rfl, rfl⟩

/-- Claim C3 (amended): for every successfully parsed non-`null` JSON
value matching none of the three accepted shapes (not an array, no
`suggestions` array field, no truthy `message` field),
`generateAnxietySuggestions` succeeds and returns an empty suggestion
sequence rather than failing. -/
theorem c3_unrecognized (t : String) (h : List HistoryItem) (p c : String)
    (usage v : Json) (hv : classifyResponse v = some ResponseShape.unrecognized) :
    (generateAnxietySuggestions t h p c (UpstreamOutcome.success (some v) usage)).snd =
      Except.ok (GenResult.mk true [] usage p) := by
  have hn : normalizeSuggestions v = Except.ok [] := by
    rw [normalizeSuggestions_eq_amended]
    simp only [amendedNormalize, hv]
  have hsnd : (generateAnxietySuggestions t h p c
        (UpstreamOutcome.success (some v) usage)).snd =
      (match normalizeSuggestions v with
       | Except.error m => Except.error (CallError.thrown m)
       | Except.ok s =>
           Except.ok (GenResult.mk true s usage p)).mapError mapServiceError := rfl
  rw [hsnd, hn]
  rfl

/-- Witness for `c3_unrecognized` at the spec's own example
`\x7b"unrelated": true\x7d`. -/
theorem c3_unrecognized_witness :
    (generateAnxietySuggestions "写论文" [] "green" ""
        (UpstreamOutcome.success (some (Json.obj [("unrelated", Json.bool true)]))
          usageSample)).snd =
      Except.ok (GenResult.mk true [] usageSample "green") :=
  c3_unrecognized "写论文" [] "green" "" usageSample
    (Json.obj [("unrelated", Json.bool true)]) rfl

/-- Claim C4: upstream HTTP 401 fails with the authentication error,
HTTP 429 with the rate-limit error, and any other upstream failure
(other status, network error, timeout) with the generic unavailability
error; the three error kinds are pairwise distinct. -/
theorem c4_upstream_error_mapping (t : String) (h : List HistoryItem) (p c m : String)
    (status : Nat) :
    (generateAnxietySuggestions t h p c
        (UpstreamOutcome.failure (AxiosError.http 401 m))).snd =
      Except.error authFailedMessage ∧
    (generateAnxietySuggestions t h p c
        (UpstreamOutcome.failure (AxiosError.http 429 m))).snd =
      Except.error rateLimitMessage ∧
    (status ≠ 401 → status ≠ 429 →
      (generateAnxietySuggestions t h p c
          (UpstreamOutcome.failure (AxiosError.http status m))).snd =
        Except.error genericFailureMessage) ∧
    (generateAnxietySuggestions t h p c
        (UpstreamOutcome.failure (AxiosError.network m))).snd =
      Except.error genericFailureMessage ∧
    authFailedMessage ≠ rateLimitMessage ∧
    authFailedMessage ≠ genericFailureMessage ∧
    rateLimitMessage ≠ genericFailureMessage := by
  refine ⟨rfl, rfl, ?_, rfl, by decide, by decide, by decide⟩
  intro h1 h2
  have hsnd : (generateAnxietySuggestions t h p c
        (UpstreamOutcome.failure (AxiosError.http status m))).snd =
      Except.error (mapServiceError (CallError.axiosErr (AxiosError.http status m))) := rfl
  rw [hsnd]
  simp [mapServiceError, h1, h2]

/-- Witness for `c4_upstream_error_mapping` at an HTTP 503 response. -/
theorem c4_upstream_error_mapping_witness :
    (generateAnxietySuggestions "写论文" [] "green" ""
        (UpstreamOutcome.failure (AxiosError.http 503 "Service Unavailable"))).snd =
      Except.error genericFailureMessage :=
  (c4_upstream_error_mapping "写论文" [] "green" "" "Service Unavailable" 503).2.2.1
    (by decide) (by decide)

/-- Claim C5: each of the three personalities selects a non-empty
system-prompt template distinct from the other two, and every
unrecognized personality value selects exactly the green template — the
selection never fails. -/
theorem c5_template_selection :
    selectSystemPrompt "green" = getGreenPersonalityPromptV2 ∧
    selectSystemPrompt "yellow" = getYellowPersonalityPromptV2 ∧
    selectSystemPrompt "red" = getRedPersonalityPromptV2 ∧
    getGreenPersonalityPromptV2 ≠ "" ∧
    getYellowPersonalityPromptV2 ≠ "" ∧
    getRedPersonalityPromptV2 ≠ "" ∧
    getGreenPersonalityPromptV2 ≠ getYellowPersonalityPromptV2 ∧
    getGreenPersonalityPromptV2 ≠ getRedPersonalityPromptV2 ∧
    getYellowPersonalityPromptV2 ≠ getRedPersonalityPromptV2 ∧
    ∀ personality : String, personality ≠ "green" → personality ≠ "yellow" →
      personality ≠ "red" → selectSystemPrompt personality = getGreenPersonalityPromptV2 := by
  refine ⟨rfl, rfl, rfl, by decide, by decide, by decide, by decide, by decide, by decide, ?_⟩
  intro personality hg hy hr
  simp [selectSystemPrompt, hy, hr]

/-- Witness for `c5_template_selection` at the unrecognized value
`"blue"`. -/
theorem c5_template_selection_witness :
    selectSystemPrompt "blue" = getGreenPersonalityPromptV2 :=
  c5_template_selection.2.2.2.2.2.2.2.2.2 "blue" (by decide) (by decide) (by decide)

/-- Claim C6: with a non-empty history the composed user prompt contains
every entry's text in order inside the enumerated listing and ends with
the fixed de-duplication instruction; with an empty history the prompt
is the bare base prompt, to which neither listing nor instruction is
appended. -/
theorem c6_history_inclusion (title ctx : String) (h : List HistoryItem) :
    (h ≠ [] →
      containsInOrder (composeUserPrompt title ctx h)
        (h.map fun item => item.suggestion_text) ∧
      ∃ pre, composeUserPrompt title ctx h = pre ++ dedupInstruction) ∧
    (h = [] → composeUserPrompt title ctx h = basePrompt title ctx) := by
  constructor
  · intro hne
    have hlen : 0 < h.length := List.length_pos.mpr hne
    rw [composeUserPrompt_pos title ctx h hlen]
    constructor
    · apply containsInOrder_append_right
      apply containsInOrder_append_right
      apply containsInOrder_append_left
      exact containsInOrder_historyListing 0 h
    · exact ⟨_, rfl⟩
  · intro he
    subst he
    exact composeUserPrompt_nil title ctx

/-- Witness for `c6_history_inclusion` at a two-entry history. -/
theorem c6_history_inclusion_witness :
    containsInOrder
      (composeUserPrompt "写论文" ""
        [HistoryItem.mk "先打开文档" "green", HistoryItem.mk "写一句摘要" "yellow"])
      ["先打开文档", "写一句摘要"] ∧
    ∃ pre, composeUserPrompt "写论文" ""
        [HistoryItem.mk "先打开文档" "green", HistoryItem.mk "写一句摘要" "yellow"] =
      pre ++ dedupInstruction :=
  (c6_history_inclusion "写论文" ""
    [HistoryItem.mk "先打开文档" "green", HistoryItem.mk "写一句摘要" "yellow"]).1
    (by simp)

/-- Claim C7: a context that is empty or whitespace-only leaves the
prompt identical to the no-context prompt (with an empty history, just
the topic line); a context with non-whitespace content appears trimmed,
verbatim, on the labeled supplementary line right after the topic
line. -/
theorem c7_context_inclusion (title ctx : String) (h : List HistoryItem) :
    (jsTrim ctx = "" →
      composeUserPrompt title ctx h = composeUserPrompt title "" h ∧
      composeUserPrompt title ctx [] = "正在拖延的事情：" ++ title) ∧
    (jsTrim ctx ≠ "" → ∃ post,
      composeUserPrompt title ctx h =
        "正在拖延的事情：" ++ title ++ "\n拖延事件的补充描述：" ++ jsTrim ctx ++ post) := by
  have hbase_empty : jsTrim ctx = "" →
      basePrompt title ctx = "正在拖延的事情：" ++ title := by
    intro he
    simp only [basePrompt]
    rw [if_neg]
    intro hco
    rw [he] at hco
    simp [String.length_empty] at hco
  have hbase_full : jsTrim ctx ≠ "" →
      basePrompt title ctx =
        "正在拖延的事情：" ++ title ++ "\n拖延事件的补充描述：" ++ jsTrim ctx := by
    intro hne
    have hctx : ctx ≠ "" := by
      intro hc
      rw [hc] at hne
      exact hne rfl
    simp only [basePrompt]
    rw [if_pos ⟨hctx, (string_length_pos_iff _).mpr hne⟩]
  constructor
  · intro he
    constructor
    · have hbb : basePrompt title ctx = basePrompt title "" := by
        rw [hbase_empty he]
        rfl
      simp only [composeUserPrompt, hbb]
    · rw [composeUserPrompt_nil, hbase_empty he]
  · intro hne
    by_cases hl : 0 < h.length
    · refine ⟨"\n\n历史建议记录：\n" ++
        joinWith "\n" (h.enum.map fun p => historyLine p.1 p.2) ++ "\n\n" ++
        dedupInstruction, ?_⟩
      rw [composeUserPrompt_pos title ctx h hl, hbase_full hne]
      simp [String.append_assoc]
    · have hnil : h = [] := by
        cases h with
        | nil => rfl
        | cons a as => exact absurd (by simp) hl
      subst hnil
      refine ⟨"", ?_⟩
      rw [composeUserPrompt_nil, hbase_full hne, String.append_empty]

/-- Witness for `c7_context_inclusion`: a whitespace-only context —
here space, ideographic space U+3000 and vertical tab U+000B, all
stripped by the JavaScript trim — is dropped; a context padded with the
same whitespace appears trimmed on the supplementary line. -/
theorem c7_context_inclusion_witness :
    composeUserPrompt "写论文" " 　\x0B" [] = "正在拖延的事情：" ++ "写论文" ∧
    ∃ post, composeUserPrompt "写论文" "　明天截止\x0B " [] =
      "正在拖延的事情：" ++ "写论文" ++ "\n拖延事件的补充描述：" ++
        jsTrim "　明天截止\x0B " ++ post :=
  ⟨((c7_context_inclusion "写论文" " 　\x0B" []).1 (by rfl)).2,
   (c7_context_inclusion "写论文" "　明天截止\x0B " []).2 (by decide)⟩

/-- Claim C8: every invocation issues exactly one upstream request, whose
body carries the model name, exactly two messages — the selected system
template and the composed user prompt — a sampling temperature of 2.0
(the top of the 0–2 scale), a `max_tokens` budget of 1500, and
`response_format \x7btype: "json_object"\x7d`. -/
theorem c8_request_shape (t : String) (h : List HistoryItem) (p c : String)
    (u : UpstreamOutcome) :
    (generateAnxietySuggestions t h p c u).fst =
      [CompletionRequest.mk "deepseek-chat"
        [ChatMessage.mk "system" (selectSystemPrompt p),
         ChatMessage.mk "user" (composeUserPrompt t c h)]
        2 1500 (ResponseFormat.mk "json_object")] := rfl

/-- Claim C9: `checkHealth` returns the healthy result carrying the
upstream-reported model string on success, and on any failure returns —
the catch-all makes it total, it never throws — the unhealthy result
carrying the error message, which is non-empty whenever the underlying
error message is. -/
theorem c9_check_health (m e : String) :
    checkHealth (HealthOutcome.success m) =
      HealthResult.mk true "healthy" (some m) none ∧
    checkHealth (HealthOutcome.failure e) =
      HealthResult.mk false "unhealthy" none (some e) ∧
    (e ≠ "" → ∃ msg, (checkHealth (HealthOutcome.failure e)).error = some msg ∧ msg ≠ "") :=
  ⟨rfl, rfl, fun he => ⟨e, rfl, he⟩⟩

/-- Witness for `c9_check_health` at a concrete connection failure. -/
theorem c9_check_health_witness :
    ∃ msg, (checkHealth
        (HealthOutcome.failure "connect ECONNREFUSED 127.0.0.1:443")).error =
      some msg ∧ msg ≠ "" :=
  (c9_check_health "deepseek-chat" "connect ECONNREFUSED 127.0.0.1:443").2.2 (by decide)

/-- Claim C10: every successful result echoes the caller-supplied
personality argument verbatim in its `personality` field — an
unrecognized value, though it selects the green template, is returned
unchanged rather than replaced by `"green"`. -/
theorem c10_personality_echo (t : String) (h : List HistoryItem) (p c : String)
    (u : UpstreamOutcome) (r : GenResult)
    (hr : (generateAnxietySuggestions t h p c u).snd = Except.ok r) :
    r.personality = p := by
  cases u with
  | failure e =>
    have hsnd : (generateAnxietySuggestions t h p c (UpstreamOutcome.failure e)).snd =
        Except.error (mapServiceError (CallError.axiosErr e)) := rfl
    rw [hsnd] at hr
    exact Except.noConfusion hr
  | success parsed usage =>
    cases parsed with
    | none =>
      have hsnd : (generateAnxietySuggestions t h p c
            (UpstreamOutcome.success none usage)).snd =
          Except.error genericFailureMessage := rfl
      rw [hsnd] at hr
      exact Except.noConfusion hr
    | some v =>
      have hsnd : (generateAnxietySuggestions t h p c
            (UpstreamOutcome.success (some v) usage)).snd =
          (match normalizeSuggestions v with
           | Except.error m => Except.error (CallError.thrown m)
           | Except.ok s =>
               Except.ok (GenResult.mk true s usage p)).mapError mapServiceError := rfl
      rw [hsnd] at hr
      cases hn : normalizeSuggestions v with
      | error m =>
        rw [hn] at hr
        exact Except.noConfusion hr
      | ok s =>
        rw [hn] at hr
        have hok : Except.ok (GenResult.mk true s usage p) = Except.ok r := hr
        injection hok with h1
        rw [← h1]

/-- Witness for `c10_personality_echo` at the unrecognized personality
`"blue"`: the result echoes `"blue"`, not `"green"`. -/
theorem c10_personality_echo_witness :
    (GenResult.mk true [] usageSample "blue").personality = "blue" :=
  c10_personality_echo "写论文" [] "blue" ""
    (UpstreamOutcome.success (some (Json.obj [("unrelated", Json.bool true)])) usageSample)
    (GenResult.mk true [] usageSample "blue") rfl
